import Mathlib

/-!
Verification of the LAVA dispatcher master-image target
(`lava_dispatcher/device/master.py`) against its design specification.

The Python code is shallowly embedded: every effectful primitive whose
outcome depends on the external device (a serial `expect` matching or
timing out, a remote command exiting nonzero, a download failing) is
modelled by an explicit oracle argument, and the control flow of each
source function is translated line by line into a pure Lean function
that returns the sequence of externally visible actions together with
the final outcome.
-/

namespace Master

/-! ### Boot state machine: `MasterImageTarget.boot_master_image`

Source lines 376-430.  Each loop iteration ("attempt") performs
`_soft_reboot(); _wait_for_master_boot()`; on `OperationFailed`/`TIMEOUT`
it falls back to `_hard_reboot(); _wait_for_master_boot()` inside the same
iteration; a second failure increments `attempts` and continues.  A booted
attempt then sets the PS1 prompt (`pexpect.TIMEOUT` increments and
continues) and queries the network (`NetworkError` increments and
continues).  When the loop exits with `in_master_image` still false a
`CriticalError` is raised.  The optional proxy export (line 421-423) is
modelled as never raising; it is unreachable in the all-attempts-fail
scenarios studied here. -/

/-- A reboot operation issued on the device. -/
inductive RebootOp
  | soft
  | hard
deriving DecidableEq, Repr

/-- Per-attempt oracle: which of the fallible steps of one iteration of
the `boot_master_image` loop succeed.
`softRebootSeen`: `_soft_reboot`'s `expect` saw a reboot message
(otherwise it raises `OperationFailed`);
`softBannerOk`: `_wait_for_master_boot` after the soft reboot succeeded;
`hardBannerOk`: `_wait_for_master_boot` after the fallback hard reboot
succeeded; `promptOk`: the PS1 export/expect succeeded;
`networkOk`: `get_target_ip`/`get_device_version` raised no
`NetworkError`. -/
structure BootAttemptEnv where
  softRebootSeen : Bool
  softBannerOk : Bool
  hardBannerOk : Bool
  promptOk : Bool
  networkOk : Bool
deriving DecidableEq, Repr

/-- The reboot operations issued during one iteration of the loop: a soft
reboot is always issued first; the hard reboot is issued exactly when the
soft path (reboot command plus master-boot wait) failed. -/
def attemptReboots (e : BootAttemptEnv) : List RebootOp :=
  if e.softRebootSeen && e.softBannerOk then [.soft] else [.soft, .hard]

/-- Whether one iteration reaches `in_master_image = True`: some reboot
path must boot to the master banner, then the prompt and the network
checks must both succeed. -/
def attemptSucceeds (e : BootAttemptEnv) : Bool :=
  (e.softRebootSeen && e.softBannerOk || !(e.softRebootSeen && e.softBannerOk) && e.hardBannerOk)
    && e.promptOk && e.networkOk

/-- Result of `boot_master_image`. -/
inductive BootResult
  | masterShell
  | criticalError
deriving DecidableEq, Repr

/-- The `while (attempts < boot_attempts) and (not in_master_image)` loop,
driven by the remaining budget `boot_attempts - attempts`.  `attempts` is
the loop counter used to index the oracle.  Returns the per-attempt reboot
traces and the final outcome (`criticalError` models the
`CriticalError("Could not get master image booted properly")` raised after
the loop). -/
def boot_master_image_go (env : Nat → BootAttemptEnv) : Nat → Nat → List (List RebootOp) × BootResult
  | _, 0 => ([], .criticalError)
  | attempts, budget + 1 =>
    if attemptSucceeds (env attempts) then
      ([attemptReboots (env attempts)], .masterShell)
    else
      let r := boot_master_image_go env (attempts + 1) budget
      (attemptReboots (env attempts) :: r.1, r.2)

/-- `MasterImageTarget.boot_master_image` with `boot_attempts =
self.config.boot_retries`. -/
def boot_master_image (env : Nat → BootAttemptEnv) (boot_retries : Nat) :
    List (List RebootOp) × BootResult :=
  boot_master_image_go env 0 boot_retries

/-- An oracle under which every fallible step of every attempt fails. -/
def allFailEnv : BootAttemptEnv :=
  ⟨false, false, false, false, false⟩

/-! ### Tarball transfer: `MasterImageTarget.target_extract`

Source lines 253-287.  The compression character is chosen from the URL
suffix before the retry loop; an unsupported suffix raises `RuntimeError`
immediately.  The loop runs while `num_retry > 0`; a failed attempt sleeps
`sleep_time = 60` seconds only when `num_retry > 1`; exhaustion raises
`RuntimeError`.  The oracle `fails i` tells whether the i-th (0-based)
on-device fetch-and-unpack command raises `OperationFailed` or
`pexpect.TIMEOUT`. -/

/-- `sleep_time` from line 282. -/
def sleep_time : Nat := 60

/-- The `tar -x<decompression_char>f` codec character chosen from the URL
extension: gzip suffixes give 'z', bzip2 gives 'j', anything else is a
configuration error (`none`). -/
def decompressionCharOf (tar_url : List Char) : Option Char :=
  if ".gz".data.isSuffixOf tar_url || ".tgz".data.isSuffixOf tar_url then some 'z'
  else if ".bz2".data.isSuffixOf tar_url then some 'j'
  else none

/-- The retry loop of `target_extract`: given the oracle, the index of the
next attempt and the current `num_retry`, returns (number of attempts
performed, list of back-off sleep durations performed, whether the
transfer returned successfully). -/
def transferLoop (fails : Nat → Bool) (i : Nat) : Nat → Nat × List Nat × Bool
  | 0 => (0, [], false)
  | n + 1 =>
    if fails i then
      let s : List Nat := if n + 1 > 1 then [sleep_time] else []
      let r := transferLoop fails (i + 1) n
      (r.1 + 1, s ++ r.2.1, r.2.2)
    else
      (1, [], true)

/-- Classification of a `target_extract` call. -/
inductive ExtractResult
  | badExtension
  | extracted
  | exhausted
deriving DecidableEq, Repr

/-- Observable behaviour of one `target_extract` call: how it ended, how
many on-device fetch attempts were made, and the back-off sleeps
performed. -/
structure ExtractRun where
  result : ExtractResult
  attempts : Nat
  sleeps : List Nat
deriving DecidableEq, Repr

/-- `MasterImageTarget.target_extract` (the `num_retry` default in the
source is 5). -/
def target_extract (fails : Nat → Bool) (tar_url : List Char) (num_retry : Nat) : ExtractRun :=
  match decompressionCharOf tar_url with
  | none => ⟨.badExtension, 0, []⟩
  | some _ =>
    let r := transferLoop fails 0 num_retry
    if r.2.2 then ⟨.extracted, r.1, r.2.1⟩ else ⟨.exhausted, r.1, r.2.1⟩

/-! ### File exchange: `MasterImageTarget.file_system`

Source lines 304-359.  After a successful `mount`, the whole body runs
inside a `try`/`finally` whose `finally` block interrupts the on-device
`SimpleHTTPServer` (`sendcontrol('c')`) and unmounts the partition.  The
host-side mutation step is the `yield` on line 342, itself wrapped in an
inner `try`/`finally` that re-archives, interrupts the server, and
re-uploads.  Every fallible step is given an oracle Bool (`true` = no
exception); `killServer` (a `sendcontrol`) never raises. -/

/-- Externally visible actions of `file_system`, in program order. -/
inductive FsEvent
  | mountPartition
  | probeTargetDir
  | tarCreate
  | cdTmp
  | startServer
  | downloadArchive
  | hostUnpack
  | hostMutation
  | hostArchive
  | killServer
  | removeTargetDir
  | reupload
  | umountPartition
deriving DecidableEq, Repr

/-- A trace fragment: actions performed, and whether the fragment
completed without an exception. -/
abbrev FsTrace := List FsEvent × Bool

/-- One primitive action with its oracle outcome. -/
def fsStep (e : FsEvent) (ok : Bool) : FsTrace := ([e], ok)

/-- Sequential composition: `b` runs only when `a` did not raise. -/
def fsSeq (a b : FsTrace) : FsTrace :=
  if a.2 then (a.1 ++ b.1, b.2) else a

/-- Python `try: body finally: fin`: `fin` always runs after `body`; the
composite raises when either part raised. -/
def fsFinally (body fin : FsTrace) : FsTrace :=
  (body.1 ++ fin.1, body.2 && fin.2)

/-- `MasterImageTarget.file_system` after partition resolution, as a trace
of device/host actions.  The oracle arguments, in program order:
`mountOk` (`mount %s /mnt`), `probeOk` (target-dir probe and `mkdir`),
`tarOk` (`tar -czf /tmp/fs.tgz`), `cdTmpOk` (`cd /tmp`), `serverOk`
(HTTP-server banner matched, else `CriticalError`), `downloadOk`
(`download_with_retry`), `hostUnpackOk` (host `mkdir` + `tar -xzf`),
`closureOk` (the yielded host-side mutation step), `hostArchiveOk`
(`mk_targz`/`rmtree`), `removeOk` (`rm -rf` of the target dir),
`reuploadOk` (`target_extract` re-upload), `umountOk` (`umount /mnt`). -/
def file_system (mountOk probeOk tarOk cdTmpOk serverOk downloadOk hostUnpackOk
    closureOk hostArchiveOk removeOk reuploadOk umountOk : Bool) : FsTrace :=
  fsSeq (fsStep .mountPartition mountOk)
    (fsFinally
      (fsSeq (fsStep .probeTargetDir probeOk)
        (fsSeq (fsStep .tarCreate tarOk)
          (fsSeq (fsStep .cdTmp cdTmpOk)
            (fsSeq (fsStep .startServer serverOk)
              (fsSeq (fsStep .downloadArchive downloadOk)
                (fsFinally
                  (fsSeq (fsStep .hostUnpack hostUnpackOk)
                    (fsStep .hostMutation closureOk))
                  (fsSeq (fsStep .hostArchive hostArchiveOk)
                    (fsSeq (fsStep .killServer true)
                      (fsSeq (fsStep .removeTargetDir removeOk)
                        (fsStep .reupload reuploadOk))))))))))
      (fsSeq (fsStep .killServer true) (fsStep .umountPartition umountOk)))

/-! ### Boot-command resolution: `MasterImageTarget._boot_linaro_image`

Source lines 468-510.  `boot_cmds_job_file` is the result of
`_is_job_defined_boot_cmds(self.config.boot_cmds)` (defined on the
`Target` base class, outside this file's scope) and
`boot_cmds_boot_options` holds when the job's boot options override
`boot_cmds`; both are taken as inputs.  The dynamically read commands are
`self.__boot_cmds_dynamic__` (an optional list). -/

/-- The four sources of boot commands, in the order they are consulted. -/
inductive BootCmdsSource
  | jobFile
  | bootOption
  | dynamicImage
  | deviceDefault
deriving DecidableEq, Repr

/-- Which source the `if`/`elif` ladder of `_boot_linaro_image`
selects. -/
def boot_linaro_image_source (boot_cmds_job_file boot_cmds_boot_options : Bool)
    (boot_cmds_dynamic : Option (List (List Char))) : BootCmdsSource :=
  if boot_cmds_job_file then .jobFile
  else if boot_cmds_boot_options then .bootOption
  else
    match boot_cmds_dynamic with
    | some _ => .dynamicImage
    | none => .deviceDefault

/-- The boot commands the ladder resolves, given the candidate value each
source would supply. -/
def boot_linaro_image_cmds (boot_cmds_job_file boot_cmds_boot_options : Bool)
    (boot_cmds_dynamic : Option (List (List Char)))
    (jobFileCmds bootOptionCmds defaultCmds : List (List Char)) : List (List Char) :=
  if boot_cmds_job_file then jobFileCmds
  else if boot_cmds_boot_options then bootOptionCmds
  else
    match boot_cmds_dynamic with
    | some cmds => cmds
    | none => defaultCmds

/-! ### Deployment failure policy: `_deploy_tarballs` / `_format_testpartition`

Source lines 152-167, 231-237, 580-608.  `_format_testpartition` runs
two `umount` commands (`failok=True`) and two `mkfs` commands; any
exception one of them raises propagates out of `_deploy_tarballs`
unchanged because the call sits before the `try`.
`_deploy_linaro_rootfs` — which contains both the tarball transfer and
the flash-kernel diversion, the generic-family step-4 customization of
the deployed root filesystem — and `_deploy_linaro_bootfs` sit inside
the bare `except:` that re-raises `CriticalError("Deployment
failed")`. -/

/-- The dispatcher error taxonomy (from `lava_dispatcher.errors`), plus
`pexpect.TIMEOUT`. -/
inductive DispatcherError
  | operationFailed
  | networkError
  | criticalError
  | pexpectTimeout
  | generalError
deriving DecidableEq, Repr

/-- Partition-affecting steps of the deployment pipeline, in program
order: the four `_format_testpartition` commands, then the commands of
`_deploy_linaro_rootfs` (lines 580-599, including the flash-kernel
diversion of lines 593-597, which is the generic-family step-4
customization of the deployed root filesystem), then the commands of
`_deploy_linaro_bootfs` (lines 602-608). -/
inductive DeployStep
  | umountTestRootfs
  | mkfsTestRootfs
  | umountTestBoot
  | mkfsTestBoot
  | udevTriggerRootfs
  | mkdirMntRoot
  | mountTestRootfs
  | transferRootfs
  | probeDpkgDivert
  | divertFlashKernel
  | linkFlashKernelTrue
  | umountMntRoot
  | udevTriggerBootfs
  | mkdirMntBoot
  | mountTestBoot
  | transferBootfs
  | umountMntBoot
deriving DecidableEq, Repr

/-- A deployment trace: steps started, and the exception (if any) that
escaped. -/
abbrev StepRun := List DeployStep × Option DispatcherError

/-- One step with the exception (if any) its command raises. -/
def stepRun (s : DeployStep) (r : Option DispatcherError) : StepRun := ([s], r)

/-- Sequential composition: the second part runs only when the first one
raised nothing. -/
def stepSeq (a b : StepRun) : StepRun :=
  match a.2 with
  | some _ => a
  | none => (a.1 ++ b.1, b.2)

/-- `MasterImageTarget._format_testpartition`: each argument is the
exception (if any) raised by the corresponding `runner.run` call.  The
`failok=True` on the two umounts means a nonzero exit code does not raise
there, but a console timeout still can, so all four stay fallible. -/
def format_testpartition (umountRoot mkfsRoot umountBoot mkfsBoot : Option DispatcherError) :
    StepRun :=
  stepSeq (stepRun .umountTestRootfs umountRoot)
    (stepSeq (stepRun .mkfsTestRootfs mkfsRoot)
      (stepSeq (stepRun .umountTestBoot umountBoot)
        (stepRun .mkfsTestBoot mkfsBoot)))

/-- Outcomes of the commands of `_deploy_linaro_rootfs`: each `Option`
field is the exception (if any) the corresponding call raises;
`divertPresent` is whether the `failok` probe
`chroot /mnt/root which dpkg-divert` exits 0, which decides whether the
two flash-kernel diversion commands run at all. -/
structure RootfsDeployEnv where
  udevTrigger : Option DispatcherError
  mkdirMnt : Option DispatcherError
  mountPartition : Option DispatcherError
  transfer : Option DispatcherError
  divertProbe : Option DispatcherError
  divertPresent : Bool
  divertCmd : Option DispatcherError
  linkCmd : Option DispatcherError
  umountMnt : Option DispatcherError

/-- Outcomes of the commands of `_deploy_linaro_bootfs`. -/
structure BootfsDeployEnv where
  udevTrigger : Option DispatcherError
  mkdirMnt : Option DispatcherError
  mountPartition : Option DispatcherError
  transfer : Option DispatcherError
  umountMnt : Option DispatcherError

/-- The flash-kernel diversion of `_deploy_linaro_rootfs` (lines
593-597): probe for `dpkg-divert` with `failok=True`; when the probe
exits 0, divert `/usr/sbin/flash-kernel` and link it to `/bin/true`.
This is the generic-family step-4 customization of the deployed root
filesystem. -/
def flashKernelDiversion (e : RootfsDeployEnv) : StepRun :=
  stepSeq (stepRun .probeDpkgDivert e.divertProbe)
    (if e.divertPresent then
      stepSeq (stepRun .divertFlashKernel e.divertCmd)
        (stepRun .linkFlashKernelTrue e.linkCmd)
    else ([], none))

/-- `_deploy_linaro_rootfs` (lines 580-599): udev trigger, mount point
creation, mount, the long tarball transfer, the flash-kernel diversion,
unmount. -/
def deploy_linaro_rootfs (e : RootfsDeployEnv) : StepRun :=
  stepSeq (stepRun .udevTriggerRootfs e.udevTrigger)
    (stepSeq (stepRun .mkdirMntRoot e.mkdirMnt)
      (stepSeq (stepRun .mountTestRootfs e.mountPartition)
        (stepSeq (stepRun .transferRootfs e.transfer)
          (stepSeq (flashKernelDiversion e)
            (stepRun .umountMntRoot e.umountMnt)))))

/-- `_deploy_linaro_bootfs` (lines 602-608). -/
def deploy_linaro_bootfs (e : BootfsDeployEnv) : StepRun :=
  stepSeq (stepRun .udevTriggerBootfs e.udevTrigger)
    (stepSeq (stepRun .mkdirMntBoot e.mkdirMnt)
      (stepSeq (stepRun .mountTestBoot e.mountPartition)
        (stepSeq (stepRun .transferBootfs e.transfer)
          (stepRun .umountMntBoot e.umountMnt))))

/-- `MasterImageTarget._deploy_tarballs` inside the `_as_master` session:
formatting first (outside the `try`), then `_deploy_linaro_rootfs` and
`_deploy_linaro_bootfs` inside the bare `except:` that re-raises any
failure — transfer and flash-kernel-diversion failures alike — as
`CriticalError("Deployment failed")`. -/
def deploy_tarballs (umountRoot mkfsRoot umountBoot mkfsBoot : Option DispatcherError)
    (re : RootfsDeployEnv) (be : BootfsDeployEnv) : StepRun :=
  let f := format_testpartition umountRoot mkfsRoot umountBoot mkfsBoot
  match f.2 with
  | some _ => f
  | none =>
    let d := stepSeq (deploy_linaro_rootfs re) (deploy_linaro_bootfs be)
    match d.2 with
    | some _ => (f.1 ++ d.1, some .criticalError)
    | none => (f.1 ++ d.1, none)

/-! ### Boot-command rewriting: `_rewrite_boot_cmds` / `_rewrite_partition_number`

Source lines 169-192.  Two Python 2 `re.sub` calls over the raw command
blob, then a split on newlines:

* `re.sub(r"root=UUID=\S+", "root=LABEL=testrootfs", boot_cmds, re.MULTILINE)`
* `re.sub("\s+\d+:(?P<partition>\d+)\s+", self._rewrite_partition_number,
  boot_cmds, re.MULTILINE)` where the replacement is
  `' ' + str(config.boot_device) + ':' + str(minor + testboot_offset) + ' '`.

In both calls `re.MULTILINE` is passed positionally as the `count`
argument of `re.sub`, so each substitution is capped at
`int(re.MULTILINE) = 8` replacements (neither pattern is anchored, so the
flag itself would have been inert anyway).  In Python 2, `\s` is exactly
`[ \t\n\r\f\v]`, `\d` is `[0-9]` and `\S` is the complement of `\s`.
Because the character classes of consecutive pattern pieces are disjoint,
greedy maximal munch needs no backtracking and the scanners below match
`re.sub`'s leftmost non-overlapping semantics. -/

/-- Python 2 `\s` on byte strings. -/
def pySpace (c : Char) : Bool :=
  c = ' ' || c = '\t' || c = '\n' || c = '\r' || c = Char.ofNat 11 || c = Char.ofNat 12

/-- Python 2 `\d`. -/
def pyDigit (c : Char) : Bool :=
  '0' ≤ c && c ≤ '9'

/-- `int()` on a nonempty digit string. -/
def digitsToNat (ds : List Char) : Nat :=
  ds.foldl (fun n c => 10 * n + (c.toNat - '0'.toNat)) 0

/-- Try to match `\s+\d+:(?P<partition>\d+)\s+` at the start of `cs`;
on success return the captured minor number and the remainder of the
input after the (greedy) match. -/
def matchPartRefAt (cs : List Char) : Option (Nat × List Char) :=
  let ws1 := cs.takeWhile pySpace
  let r1 := cs.dropWhile pySpace
  if ws1.isEmpty then none
  else
    let major := r1.takeWhile pyDigit
    let r2 := r1.dropWhile pyDigit
    if major.isEmpty then none
    else
      match r2 with
      | ':' :: r3 =>
        let minor := r3.takeWhile pyDigit
        let r4 := r3.dropWhile pyDigit
        if minor.isEmpty then none
        else
          let ws2 := r4.takeWhile pySpace
          if ws2.isEmpty then none
          else some (digitsToNat minor, r4.dropWhile pySpace)
      | _ => none

/-- Try to match `root=UUID=\S+` at the start of `cs`; on success return
the remainder after the greedy match. -/
def matchUuidAt (cs : List Char) : Option (List Char) :=
  let pre := "root=UUID=".data
  if pre.isPrefixOf cs then
    let r := cs.drop pre.length
    let tok := r.takeWhile (fun c => !pySpace c)
    if tok.isEmpty then none else some (r.dropWhile (fun c => !pySpace c))
  else none

/-- The partition-reference substitution scan.  `fuel` bounds the
recursion structurally (a match always consumes at least one character,
so any `fuel ≥ cs.length` computes the scan; `subPartRef` below passes
`cs.length`); `count` is `re.sub`'s remaining replacement budget.  The
replacement text is `' ' + boot_device + ':' + str(minor + off) + ' '`
(the matched major number and the surrounding whitespace runs are
collapsed). -/
def subPartRefAux (dev : List Char) (off : Nat) : Nat → Nat → List Char → List Char
  | _, _, [] => []
  | _, 0, cs => cs
  | 0, _, cs => cs
  | fuel + 1, count + 1, c :: cs =>
    match matchPartRefAt (c :: cs) with
    | some (minor, rest) =>
      ' ' :: (dev ++ ':' :: (Nat.toDigits 10 (minor + off) ++ ' ' :: subPartRefAux dev off fuel count rest))
    | none => c :: subPartRefAux dev off fuel (count + 1) cs

/-- `re.sub("\s+\d+:(?P<partition>\d+)\s+", _rewrite_partition_number, cs, count)`. -/
def subPartRef (dev : List Char) (off : Nat) (count : Nat) (cs : List Char) : List Char :=
  subPartRefAux dev off cs.length count cs

/-- The `root=UUID=` substitution scan, same shape as `subPartRefAux`. -/
def subUuidAux : Nat → Nat → List Char → List Char
  | _, _, [] => []
  | _, 0, cs => cs
  | 0, _, cs => cs
  | fuel + 1, count + 1, c :: cs =>
    match matchUuidAt (c :: cs) with
    | some rest => "root=LABEL=testrootfs".data ++ subUuidAux fuel count rest
    | none => c :: subUuidAux fuel (count + 1) cs

/-- `re.sub(r"root=UUID=\S+", "root=LABEL=testrootfs", cs, count)`. -/
def subUuid (count : Nat) (cs : List Char) : List Char :=
  subUuidAux cs.length count cs

/-- The rewriting performed by `_rewrite_boot_cmds` on the raw blob,
before the final `split('\n')`: the UUID substitution followed by the
partition-number substitution, each capped at 8 replacements by the
positional `re.MULTILINE`. -/
def rewrite_boot_cmds_text (boot_device : List Char) (testboot_offset : Nat)
    (boot_cmds : List Char) : List Char :=
  subPartRef boot_device testboot_offset 8 (subUuid 8 boot_cmds)

/-- `MasterImageTarget._rewrite_boot_cmds`: the rewritten blob split into
lines. -/
def rewrite_boot_cmds (boot_device : List Char) (testboot_offset : Nat)
    (boot_cmds : List Char) : List (List Char) :=
  (rewrite_boot_cmds_text boot_device testboot_offset boot_cmds).splitOn '\n'

/-- No position of `cs` matches the partition-reference pattern. -/
def noPartMatch : List Char → Bool
  | [] => true
  | c :: cs => (matchPartRefAt (c :: cs)).isNone && noPartMatch cs

/-- No position of `cs` matches the `root=UUID=\S+` pattern. -/
def noUuidMatch : List Char → Bool
  | [] => true
  | c :: cs => (matchUuidAt (c :: cs)).isNone && noUuidMatch cs

/-! ### Dynamic boot-command caching: `_read_boot_cmds`

Source lines 194-229.  The function returns immediately when the device
configuration does not ask for image boot commands, and again
immediately when `__boot_cmds_dynamic__` is already populated.  The
image/tarball search for a boot file happens outside Lean's reach; its
net result (the content of the found boot file, if any) is the oracle
`boot_file_content`.  The returned pair is the new cache value and
whether a fresh derivation was performed. -/

/-- `MasterImageTarget._read_boot_cmds` acting on the
`__boot_cmds_dynamic__` cache. -/
def read_boot_cmds (read_boot_cmds_from_image : Bool)
    (boot_file_content : Option (List Char))
    (boot_device : List Char) (testboot_offset : Nat)
    (cache : Option (List (List Char))) : Option (List (List Char)) × Bool :=
  if !read_boot_cmds_from_image then (cache, false)
  else
    match cache with
    | some _ => (cache, false)
    | none =>
      match boot_file_content with
      | some content =>
        (some (rewrite_boot_cmds boot_device testboot_offset content), true)
      | none => (cache, false)

/-! ### Reboot primitives: `_soft_reboot` / `_hard_reboot`

Source lines 443-466.  Both assign `self.master_ip = None` as their first
action, before any console traffic. -/

/-- Console-level actions of the reboot primitives, in program order. -/
inductive RebootEvent
  | clearMasterIp
  | sendControlC
  | sendLine (cmd : List Char)
  | runHostCommand (cmd : List Char)
  | sendRaw (s : List Char)
deriving DecidableEq, Repr

/-- The mutable target state touched by the reboot primitives. -/
structure MasterState where
  master_ip : Option (List Char)
deriving DecidableEq, Repr

/-- `MasterImageTarget._soft_reboot`: clears `master_ip`, interrupts any
running process, sends the configured soft boot command, then expects a
reboot message; `rebootSeen = false` models the `expect` hitting the
TIMEOUT branch, which raises `OperationFailed`.  Returns the new state,
the actions performed, and whether the call returned (no exception). -/
def soft_reboot (_st : MasterState) (soft_boot_cmd : List Char) (rebootSeen : Bool) :
    MasterState × List RebootEvent × Bool :=
  (⟨none⟩, [.clearMasterIp, .sendControlC, .sendLine soft_boot_cmd], rebootSeen)

/-- `MasterImageTarget._hard_reboot`: clears `master_ip`, then either runs
the configured hard-reset host command or sends the conmux `hardreset`
escape. -/
def hard_reboot (_st : MasterState) (hard_reset_command : List Char) :
    MasterState × List RebootEvent :=
  (⟨none⟩,
    .clearMasterIp ::
      (if hard_reset_command ≠ [] then [.runHostCommand hard_reset_command]
       else [.sendRaw "~$".data, .sendLine "hardreset".data]))

/-! ### Partition probes: `MasterCommandRunner.has_partition_with_label` /
`is_file_exist`

Source lines 554-566.  `NetworkCommandRunner.run` lives in
`lava_dispatcher/client/base.py`, outside this repository slice; its exit
code for a given command is the oracle `rc` (`none` models a `run` that
produced no exit code, which Python's `rc == 0` treats as false).  A
Python label argument of `None` or `''` is falsy. -/

/-- `MasterCommandRunner.is_file_exist`: runs `ls <path> > /dev/null`
with `failok=True` and returns whether the exit code is 0, plus the
command issued. -/
def is_file_exist (rc : List Char → Option Int) (path : List Char) :
    Bool × List (List Char) :=
  let cmd := "ls ".data ++ path ++ " > /dev/null".data
  (rc cmd == some 0, [cmd])

/-- `MasterCommandRunner.has_partition_with_label`: falsy labels answer
false with no device traffic; otherwise the probe is `is_file_exist` on
`/dev/disk/by-label/<label>`. -/
def has_partition_with_label (rc : List Char → Option Int) (label : Option (List Char)) :
    Bool × List (List Char) :=
  match label with
  | none => (false, [])
  | some l =>
    if l.isEmpty then (false, [])
    else is_file_exist rc ("/dev/disk/by-label/".data ++ l)

/-! ## Helper lemmas -/

/-- Every attempt of the boot loop begins with a soft reboot. -/
theorem attemptReboots_head (e : BootAttemptEnv) :
    (attemptReboots e).head? = some RebootOp.soft := by
  unfold attemptReboots
  split <;> rfl

/-- When every attempt fails, the boot loop runs through its whole budget
and records one reboot trace per attempt, indexed from the starting
counter. -/
theorem boot_master_image_go_all_fail (env : Nat → BootAttemptEnv)
    (h : ∀ i, attemptSucceeds (env i) = false) :
    ∀ budget a, boot_master_image_go env a budget =
      ((List.range' a budget).map (fun i => attemptReboots (env i)), .criticalError) := by
  intro budget
  induction budget with
  | zero => intro a; rfl
  | succ b ih =>
    intro a
    simp [boot_master_image_go, h a, List.range', ih (a + 1)]

/-- A transfer that fails on every attempt exhausts its whole budget and
sleeps between consecutive attempts only. -/
theorem transferLoop_all_fail (f : Nat → Bool) :
    ∀ n i, (∀ j, j < n → f (i + j) = true) →
      transferLoop f i n = (n, List.replicate (n - 1) sleep_time, false) := by
  intro n
  induction n with
  | zero => intro i _; rfl
  | succ m ih =>
    intro i h
    have h0 : f i = true := by simpa using h 0 (Nat.succ_pos m)
    have hrest : ∀ j, j < m → f (i + 1 + j) = true := by
      intro j hj
      have := h (j + 1) (Nat.succ_lt_succ hj)
      simpa [Nat.add_assoc, Nat.add_comm 1 j] using this
    simp only [transferLoop, h0, if_true, ih (i + 1) hrest]
    cases m with
    | zero => simp
    | succ k => simp [List.replicate_succ]

/-- A transfer that fails `K` times and then succeeds performs `K + 1`
attempts and `K` back-off sleeps. -/
theorem transferLoop_eventually_succeeds (f : Nat → Bool) :
    ∀ n K i, K < n → (∀ j, j < K → f (i + j) = true) → f (i + K) = false →
      transferLoop f i n = (K + 1, List.replicate K sleep_time, true) := by
  intro n
  induction n with
  | zero => intro K i hK _ _; exact absurd hK (Nat.not_lt_zero K)
  | succ m ih =>
    intro K i hK hfail hsucc
    cases K with
    | zero =>
      have h0 : f i = false := by simpa using hsucc
      simp [transferLoop, h0]
    | succ k =>
      have h0 : f i = true := by simpa using hfail 0 (Nat.succ_pos k)
      have hk : k < m := Nat.lt_of_succ_lt_succ hK
      have hrest : ∀ j, j < k → f (i + 1 + j) = true := by
        intro j hj
        have := hfail (j + 1) (Nat.succ_lt_succ hj)
        simpa [Nat.add_assoc, Nat.add_comm 1 j] using this
      have hsucc1 : f (i + 1 + k) = false := by
        have : i + 1 + k = i + (k + 1) := by omega
        rw [this]; exact hsucc
      have hm : 0 < m := Nat.lt_of_le_of_lt (Nat.zero_le k) hk
      simp only [transferLoop, h0, if_true, ih k (i + 1) hk hrest hsucc1]
      have : m + 1 > 1 := by omega
      simp [this, List.replicate_succ]

/-- A scan that finds no partition reference anywhere leaves the blob
unchanged. -/
theorem subPartRefAux_no_match (dev : List Char) (off : Nat) :
    ∀ fuel count cs, noPartMatch cs = true → subPartRefAux dev off fuel count cs = cs := by
  intro fuel
  induction fuel with
  | zero =>
    intro count cs _
    cases cs with
    | nil => cases count <;> rfl
    | cons c cs => cases count <;> rfl
  | succ n ih =>
    intro count cs h
    cases cs with
    | nil => cases count <;> rfl
    | cons c cs =>
      cases count with
      | zero => rfl
      | succ k =>
        have h1 : (matchPartRefAt (c :: cs)).isNone = true := by
          simp [noPartMatch] at h; exact Option.isNone_iff_eq_none.mpr h.1
        have h2 : noPartMatch cs = true := by
          simp [noPartMatch] at h; exact h.2
        rw [Option.isNone_iff_eq_none] at h1
        simp [subPartRefAux, h1, ih (k + 1) cs h2]

/-- A scan that finds no `root=UUID=` reference anywhere leaves the blob
unchanged. -/
theorem subUuidAux_no_match :
    ∀ fuel count cs, noUuidMatch cs = true → subUuidAux fuel count cs = cs := by
  intro fuel
  induction fuel with
  | zero =>
    intro count cs _
    cases cs with
    | nil => cases count <;> rfl
    | cons c cs => cases count <;> rfl
  | succ n ih =>
    intro count cs h
    cases cs with
    | nil => cases count <;> rfl
    | cons c cs =>
      cases count with
      | zero => rfl
      | succ k =>
        have h1 : (matchUuidAt (c :: cs)).isNone = true := by
          simp [noUuidMatch] at h; exact Option.isNone_iff_eq_none.mpr h.1
        have h2 : noUuidMatch cs = true := by
          simp [noUuidMatch] at h; exact h.2
        rw [Option.isNone_iff_eq_none] at h1
        simp [subUuidAux, h1, ih (k + 1) cs h2]

/-- On a blob neither pattern matches, the whole rewrite is the
identity. -/
theorem rewrite_boot_cmds_text_no_match (dev : List Char) (off : Nat) (cs : List Char)
    (h1 : noUuidMatch cs = true) (h2 : noPartMatch cs = true) :
    rewrite_boot_cmds_text dev off cs = cs := by
  unfold rewrite_boot_cmds_text subUuid subPartRef
  rw [subUuidAux_no_match cs.length 8 cs h1]
  exact subPartRefAux_no_match dev off cs.length 8 cs h2

/-! ## Claims -/

/-- C1 counterexample: with `boot_retries = 2` and every step of every
attempt failing, `boot_master_image` does perform exactly 2 attempts, but
the second attempt again starts with a soft reboot (escalating to hard
within the attempt), so the attempts are not "first soft, remainder
hard". -/
theorem boot_master_image_second_attempt_uses_soft :
    boot_master_image (fun _ => allFailEnv) 2 =
      ([[RebootOp.soft, RebootOp.hard], [RebootOp.soft, RebootOp.hard]], .criticalError) ∧
    RebootOp.soft ∈ ((boot_master_image (fun _ => allFailEnv) 2).1.getD 1 []) ∧
    (boot_master_image (fun _ => allFailEnv) 2).1 ≠ [[RebootOp.soft], [RebootOp.hard]] := by
  decide

/-- C1 (amended): for every configured `boot_retries = N`, if every
attempt fails, `boot_master_image` performs exactly N attempts — each
attempt first issuing a soft reboot and escalating to a hard reboot
within the same attempt when the soft path fails — and then raises
`CriticalError`; never N+1 attempts, never fewer. -/
theorem boot_master_image_exhausts_retries (env : Nat → BootAttemptEnv) (n : Nat)
    (h : ∀ i, attemptSucceeds (env i) = false) :
    boot_master_image env n =
      ((List.range' 0 n).map (fun i => attemptReboots (env i)), .criticalError) ∧
    (boot_master_image env n).1.length = n ∧
    ∀ tr ∈ (boot_master_image env n).1, tr.head? = some RebootOp.soft := by
  have hb : boot_master_image env n =
      ((List.range' 0 n).map (fun i => attemptReboots (env i)), .criticalError) :=
    boot_master_image_go_all_fail env h n 0
  refine ⟨hb, ?_, ?_⟩
  · rw [hb]; simp
  · intro tr htr
    rw [hb] at htr
    simp only [List.mem_map] at htr
    obtain ⟨i, _, rfl⟩ := htr
    exact attemptReboots_head (env i)

/-- C1 witness: the amended theorem applied to `boot_retries = 3` with an
oracle that fails every step. -/
theorem boot_master_image_exhausts_retries_witness :
    boot_master_image (fun _ => allFailEnv) 3 =
      ((List.range' 0 3).map (fun i => attemptReboots ((fun _ => allFailEnv) i)), .criticalError) ∧
    (boot_master_image (fun _ => allFailEnv) 3).1.length = 3 ∧
    ∀ tr ∈ (boot_master_image (fun _ => allFailEnv) 3).1, tr.head? = some RebootOp.soft :=
  boot_master_image_exhausts_retries (fun _ => allFailEnv) 3 (fun _ => rfl)

/-- C2: with the default retry count of 5 and a supported extension, a
transfer whose on-device command fails K < 5 times and then succeeds
returns successfully after K+1 attempts with exactly K back-off sleeps of
`sleep_time = 60` seconds; 5 consecutive failures raise fatally after the
5th attempt — no 6th attempt — with the 4 inter-attempt sleeps. -/
theorem target_extract_retry_behavior (f : Nat → Bool) (url : List Char) (c : Char)
    (hc : decompressionCharOf url = some c) (K : Nat) :
    (K < 5 → (∀ j, j < K → f j = true) → f K = false →
      target_extract f url 5 = ⟨.extracted, K + 1, List.replicate K sleep_time⟩) ∧
    ((∀ j, j < 5 → f j = true) →
      target_extract f url 5 = ⟨.exhausted, 5, List.replicate 4 sleep_time⟩) := by
  constructor
  · intro hK hfail hsucc
    have hf : ∀ j, j < K → f (0 + j) = true := by
      intro j hj; simpa using hfail j hj
    have hs : f (0 + K) = false := by simpa using hsucc
    have := transferLoop_eventually_succeeds f 5 K 0 hK hf hs
    simp [target_extract, hc, this]
  · intro hfail
    have hf : ∀ j, j < 5 → f (0 + j) = true := by
      intro j hj; simpa using hfail j hj
    have := transferLoop_all_fail f 5 0 hf
    simp [target_extract, hc, this]

/-- C2 witness: the theorem at a gzip URL, once with an oracle failing
exactly twice (3 attempts, 2 sleeps of 60), once with an oracle failing
always (fatal after 5 attempts). -/
theorem target_extract_retry_behavior_witness :
    target_extract (fun i => decide (i < 2)) "http://h/rootfs.tgz".data 5 =
      ⟨.extracted, 3, List.replicate 2 sleep_time⟩ ∧
    target_extract (fun _ => true) "http://h/rootfs.tgz".data 5 =
      ⟨.exhausted, 5, List.replicate 4 sleep_time⟩ := by
  constructor
  · exact (target_extract_retry_behavior (fun i => decide (i < 2)) _ 'z' (by decide) 2).1
      (by decide) (by decide) (by decide)
  · exact (target_extract_retry_behavior (fun _ => true) _ 'z' (by decide) 0).2
      (fun _ _ => rfl)

/-- C3: once the partition is mounted, whatever the outcome of every later
step — in particular whether the yielded host-side mutation step completes
normally or raises — the trace of `file_system` ends by interrupting the
on-device HTTP server and unmounting the partition. -/
theorem file_system_always_cleans_up (probeOk tarOk cdTmpOk serverOk downloadOk hostUnpackOk
    closureOk hostArchiveOk removeOk reuploadOk umountOk : Bool) :
    [FsEvent.killServer, FsEvent.umountPartition] <:+
      (file_system true probeOk tarOk cdTmpOk serverOk downloadOk hostUnpackOk
        closureOk hostArchiveOk removeOk reuploadOk umountOk).1 := by
  have key : ∀ (b : FsTrace) (u : Bool),
      [FsEvent.killServer, FsEvent.umountPartition] <:+
        (fsSeq (fsStep .mountPartition true)
          (fsFinally b (fsSeq (fsStep .killServer true) (fsStep .umountPartition u)))).1 := by
    intro b u
    have h1 : (fsSeq (fsStep .mountPartition true)
        (fsFinally b (fsSeq (fsStep .killServer true) (fsStep .umountPartition u)))).1 =
        FsEvent.mountPartition :: (b.1 ++ [FsEvent.killServer, FsEvent.umountPartition]) := by
      simp [fsSeq, fsStep, fsFinally]
    rw [h1]
    exact (List.suffix_append b.1 _).trans (List.suffix_cons _ _)
  exact key _ _

/-- C4: boot-command resolution follows the fixed precedence
job-specified interactive commands > job boot-option override >
dynamically read image commands > device-configuration default; in
particular, whenever a job-specified override is present it wins, even
when dynamically read image commands are also available. -/
theorem boot_linaro_image_precedence (bo : Bool) (dyn : Option (List (List Char)))
    (jobFileCmds bootOptionCmds defaultCmds v : List (List Char)) :
    boot_linaro_image_source true bo dyn = .jobFile ∧
    boot_linaro_image_cmds true bo dyn jobFileCmds bootOptionCmds defaultCmds = jobFileCmds ∧
    boot_linaro_image_source false true dyn = .bootOption ∧
    boot_linaro_image_cmds false true dyn jobFileCmds bootOptionCmds defaultCmds = bootOptionCmds ∧
    boot_linaro_image_source false false (some v) = .dynamicImage ∧
    boot_linaro_image_cmds false false (some v) jobFileCmds bootOptionCmds defaultCmds = v ∧
    boot_linaro_image_source false false none = .deviceDefault ∧
    boot_linaro_image_cmds false false none jobFileCmds bootOptionCmds defaultCmds = defaultCmds :=
  ⟨rfl, rfl, rfl, rfl, rfl, rfl, rfl, rfl⟩

/-- C5 counterexample: the command blob `"mmc read 0x80000000 0:5 0x1000\n"`
contains no `root=UUID=` reference and its single partition reference is
already offset (minor 5 = 3 + `testboot_offset` 2), yet with
`boot_device = 0` one application of the rewrite yields minor 7 and a
second application yields minor 9 — the rewrite unconditionally re-offsets
and is not idempotent. -/
theorem rewrite_boot_cmds_not_idempotent :
    noUuidMatch "mmc read 0x80000000 0:5 0x1000\n".data = true ∧
    rewrite_boot_cmds_text "0".data 2 "mmc read 0x80000000 0:5 0x1000\n".data =
      "mmc read 0x80000000 0:7 0x1000\n".data ∧
    rewrite_boot_cmds_text "0".data 2
        (rewrite_boot_cmds_text "0".data 2 "mmc read 0x80000000 0:5 0x1000\n".data) ≠
      rewrite_boot_cmds_text "0".data 2 "mmc read 0x80000000 0:5 0x1000\n".data := by
  decide

/-- C5 (amended): the rewrite is idempotent only on blobs it leaves
untouched: on a command blob with no `root=UUID=` reference and no
whitespace-delimited `<major>:<minor>` partition reference the rewrite is
the identity, so a second application is byte-identical to the first;
when a partition reference is present and the offset is nonzero, a second
application offsets the minor again (see the counterexample). -/
theorem rewrite_boot_cmds_idempotent_on_unmatched (dev : List Char) (off : Nat)
    (cs : List Char) (h1 : noUuidMatch cs = true) (h2 : noPartMatch cs = true) :
    rewrite_boot_cmds_text dev off (rewrite_boot_cmds_text dev off cs) =
      rewrite_boot_cmds_text dev off cs := by
  have hid : rewrite_boot_cmds_text dev off cs = cs :=
    rewrite_boot_cmds_text_no_match dev off cs h1 h2
  rw [hid]; exact hid

/-- C5 witness: the amended theorem on a realistic UUID-free,
reference-free boot command blob. -/
theorem rewrite_boot_cmds_idempotent_on_unmatched_witness :
    rewrite_boot_cmds_text "0".data 2
        (rewrite_boot_cmds_text "0".data 2 "setenv bootargs console=ttyS0,115200n8 rw\nboot\n".data) =
      rewrite_boot_cmds_text "0".data 2 "setenv bootargs console=ttyS0,115200n8 rw\nboot\n".data :=
  rewrite_boot_cmds_idempotent_on_unmatched "0".data 2 _ (by decide) (by decide)

/-- C6 counterexample: an `OperationFailed` raised while formatting the
test partitions (step 2) escapes `_deploy_tarballs` unchanged — it is not
caught and re-raised as `CriticalError`, because `_format_testpartition`
is called before the `try` block. -/
theorem deploy_tarballs_format_error_not_critical :
    (deploy_tarballs none (some .operationFailed) none none
        ⟨none, none, none, none, none, false, none, none, none⟩
        ⟨none, none, none, none, none⟩).2 =
      some DispatcherError.operationFailed ∧
    (deploy_tarballs none (some .operationFailed) none none
        ⟨none, none, none, none, none, false, none, none, none⟩
        ⟨none, none, none, none, none⟩).2 ≠
      some DispatcherError.criticalError := by
  decide

/-- C6 (amended): any exception during the tarball transfer or during
the generic-family step-4 customization of the deployed root filesystem
(the flash-kernel diversion inside `_deploy_linaro_rootfs`) — steps 3-4
— is caught and re-raised as a single fatal `CriticalError`; an
exception during partition formatting (step 2) propagates unchanged; in
every failure case the partition-affecting steps already performed stay
performed — no rollback step is ever issued. -/
theorem deploy_tarballs_error_policy (e : DispatcherError)
    (mR uB mB o1 o2 o3 o4 : Option DispatcherError) (b : Bool)
    (re : RootfsDeployEnv) (be : BootfsDeployEnv) :
    deploy_tarballs (some e) mR uB mB re be = ([.umountTestRootfs], some e) ∧
    deploy_tarballs none (some e) uB mB re be =
      ([.umountTestRootfs, .mkfsTestRootfs], some e) ∧
    deploy_tarballs none none (some e) mB re be =
      ([.umountTestRootfs, .mkfsTestRootfs, .umountTestBoot], some e) ∧
    deploy_tarballs none none none (some e) re be =
      ([.umountTestRootfs, .mkfsTestRootfs, .umountTestBoot, .mkfsTestBoot], some e) ∧
    deploy_tarballs none none none none ⟨none, none, none, some e, o1, b, o2, o3, o4⟩ be =
      ([.umountTestRootfs, .mkfsTestRootfs, .umountTestBoot, .mkfsTestBoot,
        .udevTriggerRootfs, .mkdirMntRoot, .mountTestRootfs, .transferRootfs],
        some .criticalError) ∧
    deploy_tarballs none none none none ⟨none, none, none, none, some e, b, o2, o3, o4⟩ be =
      ([.umountTestRootfs, .mkfsTestRootfs, .umountTestBoot, .mkfsTestBoot,
        .udevTriggerRootfs, .mkdirMntRoot, .mountTestRootfs, .transferRootfs,
        .probeDpkgDivert], some .criticalError) ∧
    deploy_tarballs none none none none ⟨none, none, none, none, none, true, some e, o3, o4⟩ be =
      ([.umountTestRootfs, .mkfsTestRootfs, .umountTestBoot, .mkfsTestBoot,
        .udevTriggerRootfs, .mkdirMntRoot, .mountTestRootfs, .transferRootfs,
        .probeDpkgDivert, .divertFlashKernel], some .criticalError) ∧
    deploy_tarballs none none none none ⟨none, none, none, none, none, true, none, some e, o4⟩ be =
      ([.umountTestRootfs, .mkfsTestRootfs, .umountTestBoot, .mkfsTestBoot,
        .udevTriggerRootfs, .mkdirMntRoot, .mountTestRootfs, .transferRootfs,
        .probeDpkgDivert, .divertFlashKernel, .linkFlashKernelTrue], some .criticalError) ∧
    deploy_tarballs none none none none ⟨none, none, none, none, none, false, o2, o3, none⟩
        ⟨none, none, none, some e, o4⟩ =
      ([.umountTestRootfs, .mkfsTestRootfs, .umountTestBoot, .mkfsTestBoot,
        .udevTriggerRootfs, .mkdirMntRoot, .mountTestRootfs, .transferRootfs,
        .probeDpkgDivert, .umountMntRoot,
        .udevTriggerBootfs, .mkdirMntBoot, .mountTestBoot, .transferBootfs],
        some .criticalError) ∧
    deploy_tarballs none none none none ⟨none, none, none, none, none, true, none, none, none⟩
        ⟨none, none, none, none, none⟩ =
      ([.umountTestRootfs, .mkfsTestRootfs, .umountTestBoot, .mkfsTestBoot,
        .udevTriggerRootfs, .mkdirMntRoot, .mountTestRootfs, .transferRootfs,
        .probeDpkgDivert, .divertFlashKernel, .linkFlashKernelTrue, .umountMntRoot,
        .udevTriggerBootfs, .mkdirMntBoot, .mountTestBoot, .transferBootfs, .umountMntBoot],
        none) ∧
    deploy_tarballs none none none none ⟨none, none, none, none, none, false, o2, o3, none⟩
        ⟨none, none, none, none, none⟩ =
      ([.umountTestRootfs, .mkfsTestRootfs, .umountTestBoot, .mkfsTestBoot,
        .udevTriggerRootfs, .mkdirMntRoot, .mountTestRootfs, .transferRootfs,
        .probeDpkgDivert, .umountMntRoot,
        .udevTriggerBootfs, .mkdirMntBoot, .mountTestBoot, .transferBootfs, .umountMntBoot],
        none) :=
  ⟨rfl, rfl, rfl, rfl, rfl, rfl, rfl, rfl, rfl, rfl, rfl⟩

/-- C7: a transfer URL whose extension is neither gzip (.gz/.tgz) nor
bzip2 (.bz2) makes `target_extract` raise the configuration error
immediately: zero attempts and zero sleeps are performed. -/
theorem target_extract_bad_extension (f : Nat → Bool) (url : List Char) (n : Nat)
    (h : decompressionCharOf url = none) :
    target_extract f url n = ⟨.badExtension, 0, []⟩ := by
  simp [target_extract, h]

/-- C7 witness: the theorem at a `.xz` URL. -/
theorem target_extract_bad_extension_witness :
    target_extract (fun _ => false) "http://h/rootfs.xz".data 5 = ⟨.badExtension, 0, []⟩ :=
  target_extract_bad_extension (fun _ => false) "http://h/rootfs.xz".data 5 (by decide)

/-- C8: once `__boot_cmds_dynamic__` holds commands, every further call to
`_read_boot_cmds` — whatever the configuration flag or the boot-file
content it might have derived from — returns with the cache unchanged and
performs no fresh derivation. -/
theorem read_boot_cmds_cache_stable (flag : Bool) (content : Option (List Char))
    (dev : List Char) (off : Nat) (v : List (List Char)) :
    read_boot_cmds flag content dev off (some v) = (some v, false) := by
  cases flag <;> rfl

/-- C9: both reboot primitives reset the cached master IP to `None` as
their very first action, before any reboot command reaches the device, so
the state they return never carries a previously discovered IP. -/
theorem reboot_clears_master_ip (st1 st2 : MasterState) (cmd hardCmd : List Char) (seen : Bool) :
    (soft_reboot st1 cmd seen).1.master_ip = none ∧
    (soft_reboot st1 cmd seen).2.1.head? = some RebootEvent.clearMasterIp ∧
    (hard_reboot st2 hardCmd).1.master_ip = none ∧
    (hard_reboot st2 hardCmd).2.head? = some RebootEvent.clearMasterIp :=
  ⟨rfl, rfl, rfl, rfl⟩

/-- C10: `has_partition_with_label` answers `false` on a null or empty
label without issuing any device command, and on a nonempty label it is
exactly `is_file_exist` on `/dev/disk/by-label/<label>`, whose answer is
true iff the probe command's exit code is 0. -/
theorem has_partition_with_label_spec (rc : List Char → Option Int) (c : Char)
    (l path : List Char) :
    has_partition_with_label rc none = (false, []) ∧
    has_partition_with_label rc (some []) = (false, []) ∧
    has_partition_with_label rc (some (c :: l)) =
      is_file_exist rc ("/dev/disk/by-label/".data ++ (c :: l)) ∧
    ((is_file_exist rc path).1 = true ↔
      rc ("ls ".data ++ path ++ " > /dev/null".data) = some 0) := by
  refine ⟨rfl, rfl, rfl, ?_⟩
  simp [is_file_exist]

end Master
